import Mathlib

/-!
Verification of the Shopify app-generator workflow orchestrator.

The JavaScript sources drive a browser (Playwright) through a fixed stage
pipeline.  The shallow embedding below translates the pure data
manipulation (string cleaning, URL parsing, candidate selection, bounded
retry loops, validation and control flow) directly from the source;
browser interactions whose outcome the program merely observes (page
URLs, element counts, input echoes, navigation success) are supplied by
an explicit oracle (`World`, `DistOracle`, url streams) so that every
control-flow decision of the source is reproduced verbatim.
-/

namespace ShopifyGen

/-! ## Whitespace model (JavaScript `\s`, `String.prototype.trim`) -/

/-- The JavaScript whitespace class `\s` (WhiteSpace ∪ LineTerminator):
space, tab, LF, VT, FF, CR, NBSP, Ogham space, the U+2000–U+200A range,
LS, PS, NNBSP, MMSP, ideographic space and the BOM. -/
def isJsWs (c : Char) : Bool :=
  c == ' ' || c == '\t' || c == '\n' || c == '\x0b' || c == '\x0c' || c == '\r' ||
  c == '\u00A0' || c == '\u1680' || ('\u2000' ≤ c && c ≤ '\u200A') ||
  c == '\u2028' || c == '\u2029' || c == '\u202F' || c == '\u205F' ||
  c == '\u3000' || c == '\uFEFF'

/-- `s.replace(/\s+/g, " ")` on the character list: every maximal run of
whitespace is replaced by a single space.  The flag records whether the
previous character was part of a whitespace run. -/
def collapseWsAux : Bool → List Char → List Char
  | _, [] => []
  | prevWs, c :: cs =>
    if isJsWs c then
      (if prevWs then [] else [' ']) ++ collapseWsAux true cs
    else
      c :: collapseWsAux false cs

/-- Leading-whitespace removal (half of `String.prototype.trim`). -/
def trimLeftWs (l : List Char) : List Char := l.dropWhile isJsWs

/-- Trailing-whitespace removal (the other half of `trim`). -/
def trimRightWs (l : List Char) : List Char := (l.reverse.dropWhile isJsWs).reverse

/-- `String.prototype.trim` on a character list. -/
def jsTrimList (l : List Char) : List Char := trimRightWs (trimLeftWs l)

/-- `String.prototype.trim`. -/
def jsStrTrim (s : String) : String := ⟨jsTrimList s.data⟩

/-- `clean` from src/lib/generateShopifyApp.js:
`(s || "").replace(/\s+/g, " ").trim()` for a string argument. -/
def clean (s : String) : String := ⟨jsTrimList (collapseWsAux false s.data)⟩

/-- `clean` applied to a possibly null/undefined argument: `(s || "")`
maps a missing value to the empty string. -/
def cleanJs (v : Option String) : String := clean (v.getD "")

/-! Normal-form predicates used to state the cleaning claim. -/

/-- The first character, when present, is not whitespace. -/
def headNotWs (l : List Char) : Bool :=
  match l with
  | [] => true
  | c :: _ => !isJsWs c

/-- No two consecutive whitespace characters. -/
def noWsRun : List Char → Bool
  | [] => true
  | [_] => true
  | a :: b :: t => (!(isJsWs a && isJsWs b)) && noWsRun (b :: t)

/-- Whitespace normal form: no leading whitespace, no trailing
whitespace, and no run of two or more consecutive whitespace characters. -/
def wsNormalForm (s : String) : Bool :=
  headNotWs s.data && headNotWs s.data.reverse && noWsRun s.data

/-! ## JavaScript string helpers used by the workflow -/

/-- `String.prototype.includes` (substring containment). -/
def jsIncludes (s pat : String) : Bool :=
  (List.range (s.data.length + 1)).any fun i => pat.data.isPrefixOf (s.data.drop i)

/-- A JavaScript word character, for the `\b` boundary in
`dashboardIdFromUrl`'s regex. -/
def isWordChar (c : Char) : Bool :=
  ('a' ≤ c && c ≤ 'z') || ('A' ≤ c && c ≤ 'Z') || ('0' ≤ c && c ≤ '9') || c == '_'

/-- Helper for `extractAppId`: at the current position, try to match
`\/apps\/(\d+)(?:\/|$)`; on failure slide one character to the right,
exactly as the regex engine scans the subject left to right. -/
def extractAppIdAux : List Char → Option String
  | [] => none
  | c :: cs =>
    let l := c :: cs
    let pre := "/apps/".data
    if pre.isPrefixOf l then
      let rest := l.drop pre.length
      let ds := rest.takeWhile Char.isDigit
      let after := rest.drop ds.length
      if !ds.isEmpty && (after.isEmpty || after.head? == some '/') then
        some ⟨ds⟩
      else extractAppIdAux cs
    else extractAppIdAux cs

/-- `extractAppId` from src/lib/generateShopifyApp.js:
`String(url || "").match(/\/apps\/(\d+)(?:\/|$)/)`, first capture group. -/
def extractAppId (url : String) : Option String := extractAppIdAux url.data

/-- Helper for `dashboardIdFromUrl`: match `\/dashboard\/(\d+)\b`
scanning left to right; after the digit run the next character, when
present, must not be a word character. -/
def dashboardIdAux : List Char → Option String
  | [] => none
  | c :: cs =>
    let l := c :: cs
    let pre := "/dashboard/".data
    if pre.isPrefixOf l then
      let rest := l.drop pre.length
      let ds := rest.takeWhile Char.isDigit
      let after := rest.drop ds.length
      if !ds.isEmpty && (after.isEmpty || after.head?.map isWordChar == some false) then
        some ⟨ds⟩
      else dashboardIdAux cs
    else dashboardIdAux cs

/-- `dashboardIdFromUrl` from src/lib/generateShopifyApp.js:
`String(dashboardUrl || "").match(/\/dashboard\/(\d+)\b/)`, first group. -/
def dashboardIdFromUrl (dashboardUrl : String) : Option String :=
  dashboardIdAux dashboardUrl.data

/-! ## Request values

`generateShopifyApp` receives `brand_name` and `store_domain` from a JSON
body; each is either a string or some other JavaScript value.  The check
in the source is `!v || typeof v !== "string"`. -/

inductive JsVal where
  | str (s : String)
  | other
deriving DecidableEq

/-- `v` passes the source's `!v || typeof v !== "string"` guard exactly
when it is a non-empty string. -/
def jsStrValid : JsVal → Bool
  | .str s => !(s == "")
  | .other => false

/-- The string content of a request value (the guard above ensures the
value is a string before this is consulted). -/
def jsStr : JsVal → String
  | .str s => s
  | .other => ""

/-- An environment variable is falsy (`!process.env.X`) when unset or set
to the empty string. -/
def envFalsy (v : Option String) : Bool := v.getD "" == ""

/-- `process.env.X || dflt` for environment variables. -/
def jsOr (v : Option String) (dflt : String) : String :=
  match v with
  | some s => if s == "" then dflt else s
  | none => dflt

/-! ## Credential scraping (`scrapeClientIdAndSecret`)

Each locator candidate of `idCandidates` / `secretCandidates` is observed
as: absent (`count() === 0`, the loop `continue`s), a read failure (the
`try`/`catch` swallows it and moves on), or a raw string read from the
element.  The loop keeps the first candidate whose `clean`ed value is
non-empty. -/

inductive Cand where
  | absent
  | errRead
  | val (raw : String)
deriving DecidableEq

/-- The value a single candidate contributes: `clean` of the raw read for
a present, readable element, and the empty string otherwise. -/
def candValue : Cand → String
  | .absent => ""
  | .errRead => ""
  | .val raw => clean raw

/-- The candidate loop of `scrapeClientIdAndSecret`: first non-empty
cleaned value wins (`if (clientId) break`), empty string if none. -/
def scrapeGo : List Cand → String
  | [] => ""
  | c :: rest => if candValue c != "" then candValue c else scrapeGo rest

/-- How many candidates the loop touches before returning: every
candidate up to and including the winning one, all of them otherwise. -/
def scrapeQueried : List Cand → Nat
  | [] => 0
  | c :: rest => if candValue c != "" then 1 else 1 + scrapeQueried rest

/-! ## Readback verification

`configureVersionAndRelease` re-reads the App URL input after typing:
`const appUrlReadback = (await appUrlInput.inputValue()).trim();` and
throws when `appUrlReadback !== appUrl`.  `fillDomainAndGenerateLink`
re-reads the domain input: `typed.trim() !== store_domain`.  In both
sites only the observed value is trimmed; the intended value is compared
as written. -/

/-- The App URL readback check of `configureVersionAndRelease`
(the error message is the one thrown at the `App URL did not stick` site). -/
def verifyAppUrlReadback (appUrl observed : String) : Except String Unit :=
  let appUrlReadback := jsStrTrim observed
  if appUrlReadback != appUrl then
    .error ("App URL did not stick. Expected \"" ++ appUrl ++ "\", got \"" ++
      appUrlReadback ++ "\"")
  else .ok ()

/-- The store-domain readback check of `fillDomainAndGenerateLink`
(iteration cited by the claim: message without a screenshot suffix). -/
def verifyDomainReadback (store_domain typed : String) : Except String Unit :=
  if jsStrTrim typed != store_domain then
    .error ("Domain did not stick. Expected \"" ++ store_domain ++ "\", got \"" ++
      typed ++ "\"")
  else .ok ()

/-! ## Account-chooser bypass (`pickAccountIfNeeded`, bounded-loop iteration)

The page URL observed after the `goto` of re-navigation attempt `k`
(`k = 1, 2, …`) is supplied by the stream `urlAfter`. -/

/-- The error thrown when the chooser persists after all attempts; it
names the page URL current at that point. -/
def chooserPersistMsg (currentUrl : String) : String :=
  "Account chooser bypass failed; still on chooser after retries. Current: " ++ currentUrl

/-- One `for (let attempt = 1; attempt <= 5; attempt++)` loop body of
`pickAccountIfNeeded`: navigate to the partners distribution URL, read
the URL, return on `partners.shopify.com` or on any URL that left the
chooser; otherwise retry.  `k` is the attempt counter, `fuel` the number
of attempts left; the successful return carries the attempt count. -/
def bypassAux (urlAfter : Nat → String) : Nat → Nat → Except String Nat
  | k, 0 => .error (chooserPersistMsg (urlAfter (k - 1)))
  | k, fuel + 1 =>
    if jsIncludes (urlAfter k) "partners.shopify.com" then .ok k
    else if !jsIncludes (urlAfter k) "accounts.shopify.com/select" then .ok k
    else bypassAux urlAfter (k + 1) fuel

/-- `pickAccountIfNeeded(page, partnersDistributionUrl)`: no-op unless
the current URL is the account chooser, then at most 5 re-navigation
attempts.  Returns the number of attempts performed. -/
def pickAccountIfNeeded (startUrl : String) (urlAfter : Nat → String) : Except String Nat :=
  if !jsIncludes startUrl "accounts.shopify.com/select" then .ok 0
  else bypassAux urlAfter 1 5

/-- The loop's exit condition on the URL observed after an attempt:
reached partners, or left the chooser URL. -/
def chooserResolved (u : String) : Bool :=
  jsIncludes u "partners.shopify.com" || !jsIncludes u "accounts.shopify.com/select"

/-! ## `selectCustomDistribution` (idempotent-short-circuit iteration)

The stage observes the page through element counts and waits; the clicks
it performs are recorded as an action list. -/

/-- What the distribution stage observes, in program order: the page URL,
whether the anchor wait resolved, the element counts consulted at each
decision point, and whether the final domain-input wait resolved. -/
structure DistOracle where
  url : String
  anchorOk : Bool
  domainCount : Nat
  genCount : Nat
  directCount : Nat
  customTextCount : Nat
  nextCount : Nat
  modalCount : Nat
  modalConfirmCount : Nat
  finalDomainOk : Bool
deriving DecidableEq

/-- The click actions `selectCustomDistribution` can perform. -/
inductive DAct where
  | clickDirect
  | clickCustomText
  | clickNext
  | clickModalConfirm
deriving DecidableEq

/-- `selectCustomDistribution(distPage)` (the iteration with the
idempotent short-circuit): URL sanity check, anchor wait, short-circuit
when the domain input or a generate button is already present, otherwise
the direct button (path A) or card text then generic select (paths B/C),
an optional modal confirmation, and the final domain-input assert.
Returns the clicks performed. -/
def selectCustomDistribution (o : DistOracle) : Except String (List DAct) :=
  if !(jsIncludes o.url "partners.shopify.com") || !(jsIncludes o.url "/distribution") then
    .error ("Not on partners distribution page. URL: " ++ o.url)
  else if !o.anchorOk then
    .error "Timed out waiting for a distribution UI anchor"
  else if o.domainCount > 0 || o.genCount > 0 then
    .ok []
  else
    let pathActs :=
      if o.directCount > 0 then [DAct.clickDirect]
      else
        (if o.customTextCount > 0 then [DAct.clickCustomText] else []) ++
        (if o.nextCount > 0 then [DAct.clickNext] else [])
    let acts :=
      pathActs ++
      (if o.modalCount > 0 && o.modalConfirmCount > 0 then [DAct.clickModalConfirm] else [])
    if o.finalDomainOk then .ok acts
    else
      .error ("Custom distribution form still not visible (no domain input). URL: " ++ o.url)

/-! ## The workflow orchestrator (`generateShopifyApp`)

The environment variables the module reads, the browser-visible events of
a run, and an oracle (`World`) supplying the outcome of each browser
interaction the source merely awaits. -/

/-- The environment variables read by generateShopifyApp.js. -/
structure Env where
  SHOPIFY_DEV_DASHBOARD_URL : Option String
  SHOPIFY_PARTNERS_ID : Option String
  APP_URL : Option String
  REDIRECT_URL : Option String
  SCOPES_CSV : Option String
deriving DecidableEq

/-- Browser-side events of a run, in the order they are performed.
`launch` is `chromium.launch`, `newCtx` is `browser.newContext` (which
reads the storage-state file), `newPage` is `context.newPage`;
`createStage` covers steps 1–5 (dashboard goto through app creation),
`configStage` the browser work of `configureVersionAndRelease` (entered
at its `page.goto`), `scrapeStage` the settings goto plus credential
scraping, `distOpen` the distribution `newPage`+`goto`, `chooserStage`
the account-chooser bypass, `selectStage` `selectCustomDistribution`,
`fillStage` `fillDomainAndGenerateLink`, and `close` `browser.close()`
in the `finally` block. -/
inductive Ev where
  | launch
  | newCtx
  | newPage
  | createStage
  | configStage
  | scrapeStage
  | distOpen
  | chooserStage
  | selectStage
  | fillStage
  | close
deriving DecidableEq

/-- Outcomes of the browser interactions of one run.  Each field models
the awaited result of the corresponding source operation; `Except.error`
is a rejected promise (timeout, detached page, missing file, …). -/
structure World where
  /-- `chromium.launch` resolves. -/
  launchOk : Bool
  /-- `browser.newContext({ storageState: "storage/shopify-storage.json" })`
  resolves (the file must exist and hold valid state). -/
  ctxOk : Bool
  /-- `context.newPage()` resolves. -/
  pageOk : Bool
  /-- Steps 1–5: goto dashboard, click Create app, fill the name, submit,
  `waitForURL(/\/apps\/\d+/)`; on success the landed detail-page URL. -/
  createOutcome : Except String String
  /-- `page.goto(versionsNewUrl)` plus the App URL input wait. -/
  versionFormNav : Except String Unit
  /-- `appUrlInput.inputValue()` after typing the App URL. -/
  appUrlEcho : String
  /-- The remaining UI work of `configureVersionAndRelease` (embed
  checkbox, scopes, redirect, release clicks, post-release verify). -/
  configureUi : Except String Unit
  /-- `page.goto(settingsUrl)`. -/
  settingsNav : Except String Unit
  /-- The locator candidates observed for the client id. -/
  idCandidates : List Cand
  /-- The locator candidates observed for the client secret. -/
  secretCandidates : List Cand
  /-- `context.newPage()` + `distPage.goto(distributionUrl)`. -/
  distNav : Except String Unit
  /-- `distPage.url()` after that goto. -/
  distLandingUrl : String
  /-- `pickAccountIfNeeded` plus the `waitForAnyURL` that follows it. -/
  chooserOutcome : Except String Unit
  /-- The UI work of `selectCustomDistribution`. -/
  selectOutcome : Except String Unit
  /-- `waitForSelector("#PolarisTextField1")` in `fillDomainAndGenerateLink`. -/
  fillFind : Except String Unit
  /-- `domainInput.inputValue().catch(() => "")` after typing the domain. -/
  domainEcho : String
  /-- The generate-link clicks and install-link scrape; on success the raw
  scraped link (empty string when no candidate matched). -/
  genOutcome : Except String String

/-- The success artifact returned by `generateShopifyApp`. -/
structure WResult where
  app_name : String
  client_id : String
  client_secret : String
  distribution_link : String
  note : String
  store_domain : String
deriving DecidableEq

/-- `configureVersionAndRelease(page, { appId, dashboardId })`: the four
configuration checks run before any browser work of the stage; then the
stage navigates (the `configStage` event), verifies the App URL readback
and performs the remaining UI work. -/
def configureVersionAndRelease (env : Env) (w : World) :
    (dashboardId : Option String) → Except String Unit × List Ev
  | dashboardId =>
    if envFalsy env.APP_URL then (.error "Missing env var: APP_URL", [])
    else if envFalsy env.REDIRECT_URL then (.error "Missing env var: REDIRECT_URL", [])
    else if envFalsy env.SCOPES_CSV then (.error "Missing env var: SCOPES_CSV", [])
    else
      match dashboardId with
      | none => (.error "Could not parse dashboard id from SHOPIFY_DEV_DASHBOARD_URL", [])
      | some _ =>
        match w.versionFormNav with
        | .error e => (.error e, [Ev.configStage])
        | .ok _ =>
          match verifyAppUrlReadback (env.APP_URL.getD "") w.appUrlEcho with
          | .error e => (.error e, [Ev.configStage])
          | .ok _ => (w.configureUi, [Ev.configStage])

/-- The note string of the success result. -/
def resultNote : String :=
  "Created app + configured version + released + scraped Client ID/secret + generated distribution link."

/-- The body of `generateShopifyApp`'s `try` block: the six stages in
sequence, exactly as in the source.  Returns the outcome together with
the browser events performed inside the `try`. -/
def runStages (env : Env) (w : World) (dashboardUrl brand store : String) :
    Except String WResult × List Ev :=
  let dashboardId := dashboardIdFromUrl dashboardUrl
  let appName := brand ++ " x Retention"
  match w.createOutcome with
  | .error e => (.error e, [Ev.createStage])
  | .ok landedUrl =>
    match extractAppId landedUrl with
    | none =>
      (.error ("Create succeeded but couldn't parse appId from URL: " ++ landedUrl),
        [Ev.createStage])
    | some _ =>
      match configureVersionAndRelease env w dashboardId with
      | (.error e, cfgEvs) => (.error e, Ev.createStage :: cfgEvs)
      | (.ok _, cfgEvs) =>
        let evs := Ev.createStage :: cfgEvs ++ [Ev.scrapeStage]
        match w.settingsNav with
        | .error e => (.error e, evs)
        | .ok _ =>
          let clientId := scrapeGo w.idCandidates
          let clientSecret := scrapeGo w.secretCandidates
          let evs := evs ++ [Ev.distOpen]
          match w.distNav with
          | .error e => (.error e, evs)
          | .ok _ =>
            let chooserHit := jsIncludes w.distLandingUrl "accounts.shopify.com/select"
            let evs := evs ++ (if chooserHit then [Ev.chooserStage] else [])
            match (if chooserHit then w.chooserOutcome else .ok ()) with
            | .error e => (.error e, evs)
            | .ok _ =>
              let evs := evs ++ [Ev.selectStage]
              match w.selectOutcome with
              | .error e => (.error e, evs)
              | .ok _ =>
                let evs := evs ++ [Ev.fillStage]
                match w.fillFind with
                | .error e => (.error e, evs)
                | .ok _ =>
                  if jsStrTrim w.domainEcho != store then
                    (.error ("Domain did not stick. Expected \"" ++ store ++
                      "\", got \"" ++ w.domainEcho ++
                      "\". Screenshot: storage/domain-did-not-stick.png"), evs)
                  else
                    match w.genOutcome with
                    | .error e => (.error e, evs)
                    | .ok link =>
                      (.ok
                        { app_name := appName
                          client_id := clean clientId
                          client_secret := clean clientSecret
                          distribution_link := clean link
                          note := resultNote
                          store_domain := store }, evs)

/-- `generateShopifyApp({ brand_name, store_domain })`: environment read
and dashboard-URL check, defensive request validation, browser launch,
context and page creation, then the `try` block with `browser.close()`
in `finally`.  The second component is the list of browser events the
run performed. -/
def generateShopifyApp (env : Env) (w : World) (brand_name store_domain : JsVal) :
    Except String WResult × List Ev :=
  if envFalsy env.SHOPIFY_DEV_DASHBOARD_URL then
    (.error "Missing env var: SHOPIFY_DEV_DASHBOARD_URL", [])
  else if !jsStrValid brand_name then (.error "brand_name is required", [])
  else if !jsStrValid store_domain then (.error "store_domain is required", [])
  else if !w.launchOk then (.error "browser launch failed", [])
  else if !w.ctxOk then
    -- `browser.newContext` is awaited between `chromium.launch` and the
    -- `try` block: its rejection propagates without reaching `finally`.
    (.error "browser context creation failed", [Ev.launch])
  else if !w.pageOk then
    (.error "page creation failed", [Ev.launch, Ev.newCtx])
  else
    let dashboardUrl := env.SHOPIFY_DEV_DASHBOARD_URL.getD ""
    let (res, evs) := runStages env w dashboardUrl (jsStr brand_name) (jsStr store_domain)
    (res, Ev.launch :: Ev.newCtx :: Ev.newPage :: (evs ++ [Ev.close]))

/-! ## The network endpoint (src/server.js, `POST /shopify/app-generator`) -/

/-- The environment variables the handler's stub-mode resolution reads. -/
structure ServerEnv where
  STUB : Option String
  DRY_RUN : Option String
deriving DecidableEq

/-- A JSON body field compared with `=== true` / `!== false`: the
boolean `true`, the boolean `false`, or anything else (absent, string,
number, …). -/
inductive TriVal where
  | vtrue
  | vfalse
  | vother
deriving DecidableEq

/-- The request body of `POST /shopify/app-generator`. -/
structure SReq where
  brand_name : JsVal
  store_domain : JsVal
  stub : TriVal
  dry_run : TriVal
deriving DecidableEq

/-- The handler's responses. -/
inductive SResp where
  /-- 400 with `{ error }`. -/
  | badRequest (error : String)
  /-- 200 with `mode: "stub"` and the fixed stub payload. -/
  | okStub (app_name client_id client_secret distribution_link : String)
  /-- 200 with `mode: "real"` and the workflow result. -/
  | okReal (r : WResult)
  /-- 500 with the error message. -/
  | serverError (msg : String)
deriving DecidableEq

/-- `String.prototype.toLowerCase` (ASCII case mapping suffices for the
values compared here). -/
def jsToLower (s : String) : String := ⟨s.data.map Char.toLower⟩

/-- `String.prototype.endsWith`. -/
def jsEndsWith (s suffixStr : String) : Bool := suffixStr.data.isSuffixOf s.data

/-- `isTrue(v)`: `String(v).toLowerCase() === "true"` for an environment
variable (undefined stringifies to `"undefined"`). -/
def isTrueEnv (v : Option String) : Bool :=
  match v with
  | some s => jsToLower s == "true"
  | none => false

/-- The handler's stub-mode resolution:
`stub === true || dry_run === true || (stub !== false && dry_run !== false
&& (isTrue(env.STUB) || isTrue(env.DRY_RUN)))`. -/
def resolveStub (env : ServerEnv) (stub dry_run : TriVal) : Bool :=
  stub == TriVal.vtrue || dry_run == TriVal.vtrue ||
    (stub != TriVal.vfalse && dry_run != TriVal.vfalse &&
      (isTrueEnv env.STUB || isTrueEnv env.DRY_RUN))

/-- The `POST /shopify/app-generator` handler.  `wfOutcome` is the
awaited result of `generateShopifyApp`, consulted only on the real
path. -/
def appGeneratorHandler (env : ServerEnv) (body : SReq)
    (wfOutcome : Except String WResult) : SResp :=
  if !jsStrValid body.brand_name then .badRequest "brand_name is required"
  else if !jsStrValid body.store_domain ||
      !jsEndsWith (jsStr body.store_domain) "myshopify.com" then
    .badRequest "store_domain must end in myshopify.com"
  else if resolveStub env body.stub body.dry_run then
    .okStub (jsStr body.brand_name ++ " X Retention")
      "stub_client_id" "stub_client_secret" "stub_distribution_link"
  else
    match wfOutcome with
    | .ok r => .okReal r
    | .error e => .serverError e

/-! ## Lemmas about the whitespace normalizer -/

/-- The adjacent-pair condition between a character and the head of the
list that follows it. -/
def pairOk (a : Char) (l : List Char) : Bool :=
  match l with
  | [] => true
  | b :: _ => !(isJsWs a && isJsWs b)

theorem noWsRun_cons (a : Char) (l : List Char) :
    noWsRun (a :: l) = (pairOk a l && noWsRun l) := by
  cases l <;> simp [noWsRun, pairOk]

theorem pairOk_of_left (a : Char) (l : List Char) (h : isJsWs a = false) :
    pairOk a l = true := by
  cases l <;> simp [pairOk, h]

theorem pairOk_of_head (a : Char) (l : List Char) (h : headNotWs l = true) :
    pairOk a l = true := by
  cases l with
  | nil => rfl
  | cons b t => simp [pairOk, headNotWs] at h ⊢; simp [h]

theorem collapse_true_headNotWs : ∀ l : List Char, headNotWs (collapseWsAux true l) = true := by
  intro l
  induction l with
  | nil => rfl
  | cons c cs ih =>
    by_cases h : isJsWs c = true
    · simpa [collapseWsAux, h] using ih
    · simp only [Bool.not_eq_true] at h
      simp [collapseWsAux, h, headNotWs]

theorem collapse_allSpace :
    ∀ (l : List Char) (b : Bool) (c : Char),
      c ∈ collapseWsAux b l → isJsWs c = true → c = ' ' := by
  intro l
  induction l with
  | nil => intro b c hc; simp [collapseWsAux] at hc
  | cons d cs ih =>
    intro b c hc hw
    by_cases h : isJsWs d = true
    · rcases b with _ | _
      · simp [collapseWsAux, h] at hc
        rcases hc with hc | hc
        · exact hc
        · exact ih true c hc hw
      · simp [collapseWsAux, h] at hc
        exact ih true c hc hw
    · simp only [Bool.not_eq_true] at h
      simp [collapseWsAux, h] at hc
      rcases hc with hc | hc
      · subst hc; rw [hw] at h; cases h
      · exact ih false c hc hw

theorem collapse_noWsRun :
    ∀ (l : List Char) (b : Bool), noWsRun (collapseWsAux b l) = true := by
  intro l
  induction l with
  | nil => intro b; rfl
  | cons c cs ih =>
    intro b
    by_cases h : isJsWs c = true
    · rcases b with _ | _
      · have hstep : collapseWsAux false (c :: cs) = ' ' :: collapseWsAux true cs := by
          simp [collapseWsAux, h]
        rw [hstep, noWsRun_cons]
        simp [pairOk_of_head _ _ (collapse_true_headNotWs cs), ih true]
      · simpa [collapseWsAux, h] using ih true
    · simp only [Bool.not_eq_true] at h
      simp only [collapseWsAux, h, Bool.false_eq_true, if_false]
      rw [noWsRun_cons]
      simp [pairOk_of_left _ _ h, ih false]

theorem dropWhile_headNotWs : ∀ l : List Char, headNotWs (l.dropWhile isJsWs) = true := by
  intro l
  induction l with
  | nil => rfl
  | cons c cs ih =>
    by_cases h : isJsWs c = true
    · simpa [List.dropWhile, h] using ih
    · simp only [Bool.not_eq_true] at h
      simp [List.dropWhile, h, headNotWs]

theorem dropWhile_noWsRun (l : List Char) (hl : noWsRun l = true) :
    noWsRun (l.dropWhile isJsWs) = true := by
  induction l with
  | nil => exact hl
  | cons c cs ih =>
    rw [noWsRun_cons, Bool.and_eq_true] at hl
    by_cases h : isJsWs c = true
    · simpa [List.dropWhile, h] using ih hl.2
    · simp only [Bool.not_eq_true] at h
      simpa [List.dropWhile, h, noWsRun_cons] using ⟨hl.1, hl.2⟩

theorem headNotWs_of_append (l t : List Char) (h : headNotWs (l ++ t) = true) :
    headNotWs l = true := by
  cases l <;> simp_all [headNotWs]

theorem noWsRun_append_left :
    ∀ l t : List Char, noWsRun (l ++ t) = true → noWsRun l = true := by
  intro l
  induction l with
  | nil => intro t _; rfl
  | cons a l' ih =>
    intro t h
    rw [List.cons_append, noWsRun_cons, Bool.and_eq_true] at h
    rw [noWsRun_cons, Bool.and_eq_true]
    refine ⟨?_, ih t h.2⟩
    cases l' with
    | nil => rfl
    | cons b t' => simpa [pairOk] using h.1

theorem trimRight_append (l : List Char) :
    trimRightWs l ++ (l.reverse.takeWhile isJsWs).reverse = l := by
  unfold trimRightWs
  conv_rhs =>
    rw [← List.reverse_reverse l,
      ← List.takeWhile_append_dropWhile (p := isJsWs) (l := l.reverse)]
  rw [List.reverse_append]

theorem trimRight_reverse (l : List Char) :
    (trimRightWs l).reverse = l.reverse.dropWhile isJsWs := by
  unfold trimRightWs
  rw [List.reverse_reverse]

theorem dropWhile_of_headNotWs (l : List Char) (h : headNotWs l = true) :
    l.dropWhile isJsWs = l := by
  cases l with
  | nil => rfl
  | cons c cs =>
    simp only [headNotWs, Bool.not_eq_true'] at h
    simp [List.dropWhile, h]

theorem trimRight_of_revHeadNotWs (l : List Char) (h : headNotWs l.reverse = true) :
    trimRightWs l = l := by
  unfold trimRightWs
  rw [dropWhile_of_headNotWs _ h, List.reverse_reverse]

theorem collapse_id_aux :
    ∀ l : List Char, noWsRun l = true → (∀ c ∈ l, isJsWs c = true → c = ' ') →
      collapseWsAux false l = l ∧
      (headNotWs l = true → collapseWsAux true l = l) := by
  intro l
  induction l with
  | nil => exact fun _ _ => ⟨rfl, fun _ => rfl⟩
  | cons c cs ih =>
    intro hrun hsp
    rw [noWsRun_cons, Bool.and_eq_true] at hrun
    have ihcs := ih hrun.2 (fun d hd => hsp d (List.mem_cons_of_mem _ hd))
    by_cases h : isJsWs c = true
    · have hc : c = ' ' := hsp c (List.mem_cons_self _ _) h
      have hcs : headNotWs cs = true := by
        cases cs with
        | nil => rfl
        | cons b t =>
          simp only [pairOk, h, Bool.true_and, Bool.not_eq_eq_eq_not, Bool.not_true] at hrun
          simp [headNotWs, hrun.1]
      constructor
      · have hstep : collapseWsAux false (c :: cs) = ' ' :: collapseWsAux true cs := by
          simp [collapseWsAux, h]
        rw [hstep, ihcs.2 hcs, hc]
      · intro hh
        rw [headNotWs, h] at hh
        cases hh
    · simp only [Bool.not_eq_true] at h
      constructor
      · simp [collapseWsAux, h, ihcs.1]
      · intro hh
        simp [collapseWsAux, h, ihcs.1]

theorem mem_trimRight (l : List Char) (c : Char) (h : c ∈ trimRightWs l) : c ∈ l := by
  have := trimRight_append l
  rw [← this]
  exact List.mem_append_left _ h

theorem clean_data (s : String) :
    (clean s).data = jsTrimList (collapseWsAux false s.data) := rfl

theorem clean_nf (s : String) :
    headNotWs (clean s).data = true ∧
    headNotWs (clean s).data.reverse = true ∧
    noWsRun (clean s).data = true ∧
    (∀ c ∈ (clean s).data, isJsWs c = true → c = ' ') := by
  have hx1 : noWsRun (collapseWsAux false s.data) = true := collapse_noWsRun s.data false
  have hx2 : ∀ c ∈ collapseWsAux false s.data, isJsWs c = true → c = ' ' :=
    fun c hc => collapse_allSpace s.data false c hc
  set x := collapseWsAux false s.data with hxdef
  set y := trimLeftWs x with hydef
  have hy1 : headNotWs y = true := dropWhile_headNotWs x
  have hy2 : noWsRun y = true := dropWhile_noWsRun x hx1
  have hy3 : ∀ c ∈ y, isJsWs c = true → c = ' ' := by
    intro c hc
    exact hx2 c (List.dropWhile_sublist (p := isJsWs) |>.mem hc)
  have hdata : (clean s).data = trimRightWs y := rfl
  have happ := trimRight_append y
  refine ⟨?_, ?_, ?_, ?_⟩
  · rw [hdata]
    exact headNotWs_of_append _ _ (by rw [happ]; exact hy1)
  · rw [hdata, trimRight_reverse]
    exact dropWhile_headNotWs _
  · rw [hdata]
    exact noWsRun_append_left _ _ (by rw [happ]; exact hy2)
  · rw [hdata]
    intro c hc
    exact hy3 c (mem_trimRight _ _ hc)

theorem clean_idem (s : String) : clean (clean s) = clean s := by
  obtain ⟨h1, h2, h3, h4⟩ := clean_nf s
  have hcol : collapseWsAux false (clean s).data = (clean s).data :=
    (collapse_id_aux (clean s).data h3 h4).1
  show (⟨jsTrimList (collapseWsAux false (clean s).data)⟩ : String) = clean s
  rw [hcol]
  unfold jsTrimList trimLeftWs
  rw [dropWhile_of_headNotWs _ h1, trimRight_of_revHeadNotWs _ h2]

theorem wsNormalForm_clean (s : String) : wsNormalForm (clean s) = true := by
  obtain ⟨h1, h2, h3, _⟩ := clean_nf s
  simp [wsNormalForm, h1, h2, h3]


/-! ## Lemmas about the workflow orchestrator -/

theorem configure_no_close (env : Env) (w : World) (d : Option String) :
    Ev.close ∉ (configureVersionAndRelease env w d).2 := by
  unfold configureVersionAndRelease
  repeat' split <;> (try simp_all)

theorem configure_no_newPage (env : Env) (w : World) (d : Option String) :
    Ev.newPage ∉ (configureVersionAndRelease env w d).2 := by
  unfold configureVersionAndRelease
  repeat' split <;> (try simp_all)

theorem runStages_no_close (env : Env) (w : World) (du b s : String) :
    Ev.close ∉ (runStages env w du b s).2 := by
  have hc := configure_no_close env w (dashboardIdFromUrl du)
  unfold runStages
  repeat' split <;> (try simp_all)

theorem gen_close_count (env : Env) (w : World) (bn sd : JsVal) :
    (Ev.newPage ∈ (generateShopifyApp env w bn sd).2 →
      (generateShopifyApp env w bn sd).2.count Ev.close = 1) ∧
    (Ev.newPage ∉ (generateShopifyApp env w bn sd).2 →
      (generateShopifyApp env w bn sd).2.count Ev.close = 0) := by
  unfold generateShopifyApp
  repeat' split
  all_goals try exact ⟨fun hmem => absurd hmem (by decide), fun _ => by decide⟩
  rcases hrs : runStages env w (env.SHOPIFY_DEV_DASHBOARD_URL.getD "")
      (jsStr bn) (jsStr sd) with ⟨res, evs⟩
  have h1 : Ev.close ∉ evs := by
    have h0 := runStages_no_close env w (env.SHOPIFY_DEV_DASHBOARD_URL.getD "")
      (jsStr bn) (jsStr sd)
    rw [hrs] at h0
    exact h0
  simp only [hrs]
  constructor
  · intro _
    rw [List.count_cons_of_ne (by decide), List.count_cons_of_ne (by decide),
        List.count_cons_of_ne (by decide), List.count_append,
        List.count_eq_zero.mpr h1]
    decide
  · intro hmem
    exact absurd (by simp : Ev.newPage ∈
      Ev.launch :: Ev.newCtx :: Ev.newPage :: (evs ++ [Ev.close])) hmem

theorem runStages_ok_char (env : Env) (w : World) (du b s : String) (r : WResult)
    (h : (runStages env w du b s).1 = .ok r) :
    r.app_name = b ++ " x Retention" ∧
    r.client_id = clean (scrapeGo w.idCandidates) ∧
    r.client_secret = clean (scrapeGo w.secretCandidates) ∧
    r.store_domain = s ∧
    (∃ link, w.genOutcome = .ok link ∧ r.distribution_link = clean link) := by
  unfold runStages at h
  repeat' split at h <;> (try simp_all)
  rcases h with ⟨rfl⟩
  simp_all

theorem gen_ok_char (env : Env) (w : World) (bn sd : JsVal) (r : WResult)
    (h : (generateShopifyApp env w bn sd).1 = .ok r) :
    r.app_name = jsStr bn ++ " x Retention" ∧
    r.client_id = clean (scrapeGo w.idCandidates) ∧
    r.client_secret = clean (scrapeGo w.secretCandidates) ∧
    r.store_domain = jsStr sd ∧
    (∃ link, w.genOutcome = .ok link ∧ r.distribution_link = clean link) := by
  unfold generateShopifyApp at h
  repeat' split at h <;> (try simp_all)
  rcases hrs : runStages env w (env.SHOPIFY_DEV_DASHBOARD_URL.getD "")
      (jsStr bn) (jsStr sd) with ⟨res, evs⟩
  rw [hrs] at h
  simp at h
  exact runStages_ok_char env w _ _ _ r (by rw [hrs]; exact h)

/-! ## Lemmas about the account-chooser bypass loop -/

theorem bypassAux_ok_of (urlAfter : Nat → String) :
    ∀ (fuel k j : Nat), k ≤ j → j < k + fuel →
      chooserResolved (urlAfter j) = true →
      (∀ i, k ≤ i → i < j → chooserResolved (urlAfter i) = false) →
      bypassAux urlAfter k fuel = .ok j := by
  intro fuel
  induction fuel with
  | zero => intro k j h1 h2 _ _; omega
  | succ fuel ih =>
    intro k j h1 h2 hres hbefore
    rcases Nat.eq_or_lt_of_le h1 with rfl | hlt
    · unfold bypassAux
      by_cases hp : jsIncludes (urlAfter k) "partners.shopify.com" = true
      · rw [if_pos hp]
      · rw [if_neg hp]
        have hres' := hres
        unfold chooserResolved at hres'
        rw [Bool.or_eq_true] at hres'
        rcases hres' with h | h
        · exact absurd h hp
        · rw [if_pos h]
    · have hk : chooserResolved (urlAfter k) = false := hbefore k (le_refl k) hlt
      unfold chooserResolved at hk
      rw [Bool.or_eq_false_iff] at hk
      unfold bypassAux
      rw [hk.1]
      simp only [Bool.false_eq_true, if_false, hk.2]
      exact ih (k + 1) j hlt (by omega) hres
        (fun i hi1 hi2 => hbefore i (by omega) hi2)

theorem bypassAux_err_of (urlAfter : Nat → String) :
    ∀ (fuel k : Nat),
      (∀ j, k ≤ j → j < k + fuel → chooserResolved (urlAfter j) = false) →
      bypassAux urlAfter k fuel = .error (chooserPersistMsg (urlAfter (k + fuel - 1))) := by
  intro fuel
  induction fuel with
  | zero => intro k _; rfl
  | succ fuel ih =>
    intro k hall
    have hk : chooserResolved (urlAfter k) = false := hall k (le_refl k) (by omega)
    unfold chooserResolved at hk
    rw [Bool.or_eq_false_iff] at hk
    unfold bypassAux
    rw [hk.1]
    simp only [Bool.false_eq_true, if_false, hk.2]
    have harg : k + 1 + fuel - 1 = k + (fuel + 1) - 1 := by omega
    rw [← harg]
    exact ih (k + 1) (fun j hj1 hj2 => hall j (by omega) (by omega))

theorem bypassAux_ok_le (urlAfter : Nat → String) :
    ∀ (fuel k j : Nat), bypassAux urlAfter k fuel = .ok j → j < k + fuel := by
  intro fuel
  induction fuel with
  | zero => intro k j h; exact absurd h (by simp [bypassAux])
  | succ fuel ih =>
    intro k j h
    unfold bypassAux at h
    split at h
    · cases h; omega
    · split at h
      · cases h; omega
      · have := ih (k + 1) j h
        omega


/-! ## Lemmas about candidate scraping and the success path -/

theorem scrape_first_nonempty :
    ∀ (cs : List Cand) (k : Nat) (hk : k < cs.length),
      candValue (cs.get ⟨k, hk⟩) ≠ "" →
      (∀ c ∈ cs.take k, candValue c = "") →
      scrapeGo cs = candValue (cs.get ⟨k, hk⟩) ∧ scrapeQueried cs = k + 1 := by
  intro cs
  induction cs with
  | nil => intro k hk; exact absurd hk (by simp)
  | cons c rest ih =>
    intro k hk hnz hbefore
    cases k with
    | zero =>
      have hb : (candValue c != "") = true := by
        simpa using hnz
      simp [scrapeGo, scrapeQueried, hb]
    | succ k2 =>
      have h0 : candValue c = "" := hbefore c (by simp [List.take])
      have hb : (candValue c != "") = false := by simp [h0]
      obtain ⟨ih1, ih2⟩ := ih k2 (Nat.lt_of_succ_lt_succ hk)
        (by simpa using hnz)
        (fun d hd => hbefore d (by simp [List.take]; exact Or.inr hd))
      refine ⟨?_, ?_⟩
      · simpa [scrapeGo, hb] using ih1
      · simp [scrapeQueried, hb, ih2]
        omega

theorem gen_success (env : Env) (w : World) (bn sd : JsVal)
    (hdash : envFalsy env.SHOPIFY_DEV_DASHBOARD_URL = false)
    (hbv : jsStrValid bn = true) (hsv : jsStrValid sd = true)
    (hl : w.launchOk = true) (hc : w.ctxOk = true) (hp : w.pageOk = true)
    (u : String) (hcr : w.createOutcome = .ok u)
    (a : String) (hex : extractAppId u = some a)
    (hau : envFalsy env.APP_URL = false) (hru : envFalsy env.REDIRECT_URL = false)
    (hsc : envFalsy env.SCOPES_CSV = false)
    (d : String)
    (hdid : dashboardIdFromUrl (env.SHOPIFY_DEV_DASHBOARD_URL.getD "") = some d)
    (hvf : w.versionFormNav = .ok ())
    (hecho : jsStrTrim w.appUrlEcho = env.APP_URL.getD "")
    (hcfg : w.configureUi = .ok ()) (hset : w.settingsNav = .ok ())
    (hdn : w.distNav = .ok ())
    (hch : jsIncludes w.distLandingUrl "accounts.shopify.com/select" = false)
    (hsel : w.selectOutcome = .ok ()) (hff : w.fillFind = .ok ())
    (hde : jsStrTrim w.domainEcho = jsStr sd)
    (link : String) (hgen : w.genOutcome = .ok link) :
    generateShopifyApp env w bn sd =
      (.ok { app_name := jsStr bn ++ " x Retention"
             client_id := clean (scrapeGo w.idCandidates)
             client_secret := clean (scrapeGo w.secretCandidates)
             distribution_link := clean link
             note := resultNote
             store_domain := jsStr sd },
       [Ev.launch, Ev.newCtx, Ev.newPage, Ev.createStage, Ev.configStage,
        Ev.scrapeStage, Ev.distOpen, Ev.selectStage, Ev.fillStage, Ev.close]) := by
  have hechoB : (jsStrTrim w.appUrlEcho != env.APP_URL.getD "") = false := by
    simp [hecho]
  have hdeB : (jsStrTrim w.domainEcho != jsStr sd) = false := by
    simp [hde]
  unfold generateShopifyApp runStages configureVersionAndRelease verifyAppUrlReadback
  simp [hdash, hbv, hsv, hl, hc, hp, hcr, hex, hau, hru, hsc, hdid, hvf,
    hechoB, hcfg, hset, hdn, hch, hsel, hff, hdeB, hgen]


/-! ## Concrete environments and worlds used by witnesses and counterexamples -/

/-- A fully configured environment. -/
def envFull : Env :=
  { SHOPIFY_DEV_DASHBOARD_URL := some "https://dev.shopify.com/dashboard/130027305/apps"
    SHOPIFY_PARTNERS_ID := none
    APP_URL := some "https://app.retention.com/integrations/oauth2/ShopifyOauth/start"
    REDIRECT_URL := some "https://app.retention.com/integrations/oauth2/ShopifyOauth"
    SCOPES_CSV := some "read_orders,write_orders" }

/-- A fully cooperative browser world: every interaction succeeds and
every readback echoes the written value. -/
def wCoop : World :=
  { launchOk := true, ctxOk := true, pageOk := true
    createOutcome := .ok "https://dev.shopify.com/dashboard/130027305/apps/123"
    versionFormNav := .ok ()
    appUrlEcho := "https://app.retention.com/integrations/oauth2/ShopifyOauth/start"
    configureUi := .ok ()
    settingsNav := .ok ()
    idCandidates := [Cand.absent, Cand.val " cid "]
    secretCandidates := [Cand.val "sec"]
    distNav := .ok ()
    distLandingUrl := "https://partners.shopify.com/2767396/apps/123/distribution"
    chooserOutcome := .ok ()
    selectOutcome := .ok ()
    fillFind := .ok ()
    domainEcho := "acme.myshopify.com"
    genOutcome := .ok "https://admin.shopify.com/oauth/install_custom_app?x=1" }

/-- The result produced by `wCoop` for brand `Acme`, store
`acme.myshopify.com`. -/
def rCoop : WResult :=
  { app_name := "Acme x Retention"
    client_id := "cid"
    client_secret := "sec"
    distribution_link := "https://admin.shopify.com/oauth/install_custom_app?x=1"
    note := resultNote
    store_domain := "acme.myshopify.com" }



/-! ## Claims -/

/-- C1 (corrected): for every run of the real workflow that returns a
result, `app_name` equals `brand_name ++ " x Retention"`; the server's
stub-mode path instead returns `brand_name ++ " X Retention"` (capital X). -/
theorem C1_app_name_derivation :
    (∀ (env : Env) (w : World) (bn sd : JsVal) (r : WResult),
      (generateShopifyApp env w bn sd).1 = .ok r →
      r.app_name = jsStr bn ++ " x Retention") ∧
    (∀ (env : ServerEnv) (body : SReq) (wf : Except String WResult),
      jsStrValid body.brand_name = true →
      jsStrValid body.store_domain = true →
      jsEndsWith (jsStr body.store_domain) "myshopify.com" = true →
      resolveStub env body.stub body.dry_run = true →
      appGeneratorHandler env body wf =
        .okStub (jsStr body.brand_name ++ " X Retention") "stub_client_id"
          "stub_client_secret" "stub_distribution_link") := by
  constructor
  · intro env w bn sd r h
    exact (gen_ok_char env w bn sd r h).1
  · intro env body wf hbv hsv hend hstub
    unfold appGeneratorHandler
    simp [hbv, hsv, hend, hstub]

/-- C1 counterexample: on the server's stub-mode path the response's
`app_name` is `"Acme X Retention"`, not the claimed `"Acme x Retention"`. -/
theorem C1_counterexample :
    appGeneratorHandler { STUB := none, DRY_RUN := none }
      { brand_name := .str "Acme", store_domain := .str "acme.myshopify.com",
        stub := .vtrue, dry_run := .vother } (.error "unused") =
      .okStub "Acme X Retention" "stub_client_id" "stub_client_secret"
        "stub_distribution_link" ∧
    "Acme X Retention" ≠ "Acme x Retention" := by
  exact ⟨rfl, by decide⟩

/-- C1 witness: the real path yields `"Acme x Retention"` and the stub
path yields `"Acme X Retention"` on concrete cooperative inputs. -/
theorem C1_app_name_derivation_witness :
    rCoop.app_name = "Acme x Retention" ∧
    appGeneratorHandler { STUB := some "true", DRY_RUN := none }
      { brand_name := .str "Acme", store_domain := .str "acme.myshopify.com",
        stub := .vother, dry_run := .vother } (.error "unused") =
      .okStub "Acme X Retention" "stub_client_id" "stub_client_secret"
        "stub_distribution_link" := by
  constructor
  · have h := C1_app_name_derivation.1 envFull wCoop (.str "Acme")
      (.str "acme.myshopify.com") rCoop rfl
    exact h.trans (by decide)
  · exact C1_app_name_derivation.2 { STUB := some "true", DRY_RUN := none }
      { brand_name := .str "Acme", store_domain := .str "acme.myshopify.com",
        stub := .vother, dry_run := .vother } (.error "unused")
      (by decide) (by decide) (by decide) (by decide)

/-- C2 (confirmed): with the dashboard URL configured (the server refuses
to start without it), a request whose `brand_name` or `store_domain` is
empty or not a string fails with the corresponding validation error and
performs no browser work; and the browser launch is reached only when
both checks pass. -/
theorem C2_validation_before_browser :
    (∀ (env : Env) (w : World) (bn sd : JsVal),
      envFalsy env.SHOPIFY_DEV_DASHBOARD_URL = false →
      (jsStrValid bn = false ∨ jsStrValid sd = false) →
      ((generateShopifyApp env w bn sd).1 = .error "brand_name is required" ∨
       (generateShopifyApp env w bn sd).1 = .error "store_domain is required") ∧
      (generateShopifyApp env w bn sd).2 = []) ∧
    (∀ (env : Env) (w : World) (bn sd : JsVal),
      Ev.launch ∈ (generateShopifyApp env w bn sd).2 →
      jsStrValid bn = true ∧ jsStrValid sd = true) := by
  constructor
  · intro env w bn sd hdash hbad
    unfold generateShopifyApp
    by_cases hb : jsStrValid bn = true
    · have hs : jsStrValid sd = false := by
        rcases hbad with h | h
        · rw [hb] at h; cases h
        · exact h
      simp [hdash, hb, hs]
    · rw [Bool.not_eq_true] at hb
      simp [hdash, hb]
  · intro env w bn sd hmem
    unfold generateShopifyApp at hmem
    repeat' split at hmem <;> simp_all

/-- C2 witness: a concrete invalid request fails with the validation
error and an empty browser trace; a concrete valid request passes both
checks. -/
theorem C2_validation_before_browser_witness :
    (((generateShopifyApp envFull wCoop (.str "") (.str "acme.myshopify.com")).1 =
        .error "brand_name is required" ∨
      (generateShopifyApp envFull wCoop (.str "") (.str "acme.myshopify.com")).1 =
        .error "store_domain is required") ∧
     (generateShopifyApp envFull wCoop (.str "") (.str "acme.myshopify.com")).2 = []) ∧
    (jsStrValid (.str "Acme") = true ∧ jsStrValid (.str "acme.myshopify.com") = true) := by
  constructor
  · exact C2_validation_before_browser.1 envFull wCoop (.str "") (.str "acme.myshopify.com")
      (by decide) (Or.inl (by decide))
  · exact C2_validation_before_browser.2 envFull wCoop (.str "Acme")
      (.str "acme.myshopify.com") (by decide)


/-- C3 (corrected): once page creation has succeeded, the browser is
closed exactly once on every outcome, and no run ever closes it more
than once; but a failure of context or page creation after a successful
launch propagates without closing the browser (they are awaited outside
the `try`/`finally`). -/
theorem C3_browser_teardown :
    ∀ (env : Env) (w : World) (bn sd : JsVal),
      (Ev.newPage ∈ (generateShopifyApp env w bn sd).2 →
        (generateShopifyApp env w bn sd).2.count Ev.close = 1) ∧
      (Ev.newPage ∉ (generateShopifyApp env w bn sd).2 →
        (generateShopifyApp env w bn sd).2.count Ev.close = 0) ∧
      (generateShopifyApp env w bn sd).2.count Ev.close ≤ 1 := by
  intro env w bn sd
  obtain ⟨h1, h2⟩ := gen_close_count env w bn sd
  refine ⟨h1, h2, ?_⟩
  by_cases hmem : Ev.newPage ∈ (generateShopifyApp env w bn sd).2
  · rw [h1 hmem]
  · rw [h2 hmem]
    omega

/-- C3 counterexample: when `browser.newContext` fails (for example the
storage-state file is missing), the browser was launched but is never
closed — the claimed "closed exactly once for every outcome after
launch" fails. -/
theorem C3_counterexample :
    Ev.launch ∈
      (generateShopifyApp envFull { wCoop with ctxOk := false }
        (.str "Acme") (.str "acme.myshopify.com")).2 ∧
    (generateShopifyApp envFull { wCoop with ctxOk := false }
        (.str "Acme") (.str "acme.myshopify.com")).2.count Ev.close = 0 := by
  decide

/-- C3 witness: the cooperative run reaches page creation and closes the
browser exactly once. -/
theorem C3_browser_teardown_witness :
    (generateShopifyApp envFull wCoop (.str "Acme")
      (.str "acme.myshopify.com")).2.count Ev.close = 1 := by
  exact (C3_browser_teardown envFull wCoop (.str "Acme")
    (.str "acme.myshopify.com")).1 (by decide)

/-- C4 (confirmed): once on the account chooser, the bypass performs at
most 5 re-navigation attempts; if the URL observed after attempt `k ≤ 5`
is the first to reach partners or leave the chooser, the bypass returns
after exactly `k` attempts; if the chooser persists on all 5 attempts it
fails with the descriptive error naming the URL current after the 5th. -/
theorem C4_chooser_bypass :
    (∀ (startUrl : String) (urlAfter : Nat → String) (k : Nat),
      jsIncludes startUrl "accounts.shopify.com/select" = true →
      1 ≤ k → k ≤ 5 →
      chooserResolved (urlAfter k) = true →
      (∀ j, j < k → 1 ≤ j → chooserResolved (urlAfter j) = false) →
      pickAccountIfNeeded startUrl urlAfter = .ok k) ∧
    (∀ (startUrl : String) (urlAfter : Nat → String),
      jsIncludes startUrl "accounts.shopify.com/select" = true →
      (∀ j, j ≤ 5 → 1 ≤ j → chooserResolved (urlAfter j) = false) →
      pickAccountIfNeeded startUrl urlAfter =
        .error (chooserPersistMsg (urlAfter 5))) ∧
    (∀ (startUrl : String) (urlAfter : Nat → String) (k : Nat),
      pickAccountIfNeeded startUrl urlAfter = .ok k → k ≤ 5) := by
  refine ⟨?_, ?_, ?_⟩
  · intro startUrl urlAfter k hstart hk1 hk5 hres hbefore
    unfold pickAccountIfNeeded
    rw [hstart]
    simp only [Bool.not_true, Bool.false_eq_true, if_false]
    exact bypassAux_ok_of urlAfter 5 1 k hk1 (by omega) hres
      (fun i hi1 hi2 => hbefore i hi2 hi1)
  · intro startUrl urlAfter hstart hall
    unfold pickAccountIfNeeded
    rw [hstart]
    simp only [Bool.not_true, Bool.false_eq_true, if_false]
    have h := bypassAux_err_of urlAfter 5 1
      (fun j hj1 hj2 => hall j (by omega) hj1)
    simpa using h
  · intro startUrl urlAfter k h
    unfold pickAccountIfNeeded at h
    split at h
    · cases h; omega
    · have := bypassAux_ok_le urlAfter 5 1 k h
      omega

/-- The chooser URL used by the C4 witness. -/
def chooserUrlW : String := "https://accounts.shopify.com/select?rid=9"

/-- The partners destination URL used by the C4 witness. -/
def partnersUrlW : String := "https://partners.shopify.com/2767396/apps/123/distribution"

/-- A simulated chooser that resolves on the 3rd re-navigation. -/
def urlsResolve3 : Nat → String := fun n => if n < 3 then chooserUrlW else partnersUrlW

/-- A simulated chooser that never resolves. -/
def urlsNever : Nat → String := fun _ => chooserUrlW

/-- C4 witness: a chooser resolving on attempt 3 yields exactly 3
attempts; a chooser that never resolves fails with the descriptive
error after 5 attempts. -/
theorem C4_chooser_bypass_witness :
    pickAccountIfNeeded chooserUrlW urlsResolve3 = .ok 3 ∧
    pickAccountIfNeeded chooserUrlW urlsNever =
      .error (chooserPersistMsg chooserUrlW) := by
  constructor
  · exact C4_chooser_bypass.1 chooserUrlW urlsResolve3 3 (by decide) (by decide)
      (by decide) (by decide) (by decide)
  · exact C4_chooser_bypass.2.1 chooserUrlW urlsNever (by decide) (by decide)

/-- C5 (corrected): the readback checks trim only the observed value and
compare it to the intended value exactly as written; on mismatch the
stage fails with an error carrying the expected value and the observed
value, and when the trimmed observed value equals the intended value the
stage proceeds.  (The claim's "match after trimming" fails when the
intended value itself has edge whitespace.) -/
theorem C5_readback_verification :
    ∀ expected observed : String,
      (jsStrTrim observed = expected →
        verifyDomainReadback expected observed = .ok () ∧
        verifyAppUrlReadback expected observed = .ok ()) ∧
      (jsStrTrim observed ≠ expected →
        verifyDomainReadback expected observed =
          .error ("Domain did not stick. Expected \"" ++ expected ++
            "\", got \"" ++ observed ++ "\"") ∧
        verifyAppUrlReadback expected observed =
          .error ("App URL did not stick. Expected \"" ++ expected ++
            "\", got \"" ++ jsStrTrim observed ++ "\"")) := by
  intro expected observed
  constructor
  · intro h
    have hb : (jsStrTrim observed != expected) = false := by simp [h]
    constructor <;> simp [verifyDomainReadback, verifyAppUrlReadback, hb]
  · intro h
    have hb : (jsStrTrim observed != expected) = true := by simpa using h
    constructor <;> simp [verifyDomainReadback, verifyAppUrlReadback, hb]

/-- C5 counterexample: an intended value with a trailing space.  The UI
echoes back exactly the written value (so expected and observed agree,
in particular after trimming), yet both stages fail, because the code
compares the trimmed observed value against the untrimmed intended one. -/
theorem C5_counterexample :
    verifyDomainReadback "a " "a " =
      .error "Domain did not stick. Expected \"a \", got \"a \"" ∧
    verifyAppUrlReadback "a " "a " =
      .error "App URL did not stick. Expected \"a \", got \"a\"" ∧
    jsStrTrim "a " = jsStrTrim "a " := by
  exact ⟨rfl, rfl, rfl⟩

/-- C5 witness: a trim-normal intended value proceeds when echoed with
edge whitespace, and fails with the carrying error on a genuine
mismatch. -/
theorem C5_readback_verification_witness :
    (verifyDomainReadback "x" " x " = .ok () ∧
     verifyAppUrlReadback "x" " x " = .ok ()) ∧
    (verifyDomainReadback "x" "y" =
      .error "Domain did not stick. Expected \"x\", got \"y\"" ∧
     verifyAppUrlReadback "x" "y" =
      .error "App URL did not stick. Expected \"x\", got \"y\"") := by
  constructor
  · exact (C5_readback_verification "x" " x ").1 (by decide)
  · have h := (C5_readback_verification "x" "y").2 (by decide)
    exact h


/-- C6 (confirmed): when the `k`-th candidate (0-based `k` here denotes
position `k+1`) is the first whose cleaned value is non-empty, the
candidate loop returns that value, touches exactly the first `k+1`
candidates in declared order, and never queries any later candidate. -/
theorem C6_candidate_ordering :
    ∀ (cs : List Cand) (k : Nat) (hk : k < cs.length),
      candValue (cs.get ⟨k, hk⟩) ≠ "" →
      (∀ c ∈ cs.take k, candValue c = "") →
      scrapeGo cs = candValue (cs.get ⟨k, hk⟩) ∧ scrapeQueried cs = k + 1 := by
  exact scrape_first_nonempty

/-- The candidate list used by the C6 witness: the first candidate is
absent, the second is the first to yield a non-empty cleaned value, the
third is never touched. -/
def candsW : List Cand := [Cand.absent, Cand.val " x  y ", Cand.val "z"]

/-- C6 witness: on `candsW` the loop returns the second candidate's
cleaned value after touching exactly 2 candidates. -/
theorem C6_candidate_ordering_witness :
    scrapeGo candsW = candValue (candsW.get ⟨1, by decide⟩) ∧
    scrapeQueried candsW = 1 + 1 := by
  exact C6_candidate_ordering candsW 1 (by decide) (by decide) (by decide)

/-- The first of the three configuration errors raised inside
`configureVersionAndRelease`, in the order the source checks them. -/
def cfgMissingMsg (env : Env) : String :=
  if envFalsy env.APP_URL then "Missing env var: APP_URL"
  else if envFalsy env.REDIRECT_URL then "Missing env var: REDIRECT_URL"
  else "Missing env var: SCOPES_CSV"

/-- C7 (corrected): only the dashboard URL is checked at run start,
before any browser work.  A missing callback/app URL, redirect URL or
scopes CSV is detected at the start of the configure-version stage: the
run fails with the corresponding configuration error before that stage's
browser work, but only after the resource-creation stage has already run. -/
theorem C7_config_fatality :
    (∀ (env : Env) (w : World) (bn sd : JsVal),
      envFalsy env.SHOPIFY_DEV_DASHBOARD_URL = true →
      (generateShopifyApp env w bn sd).1 =
        .error "Missing env var: SHOPIFY_DEV_DASHBOARD_URL" ∧
      (generateShopifyApp env w bn sd).2 = []) ∧
    (∀ (env : Env) (w : World) (bn sd : JsVal) (u a : String),
      envFalsy env.SHOPIFY_DEV_DASHBOARD_URL = false →
      jsStrValid bn = true → jsStrValid sd = true →
      w.launchOk = true → w.ctxOk = true → w.pageOk = true →
      w.createOutcome = .ok u → extractAppId u = some a →
      (envFalsy env.APP_URL = true ∨ envFalsy env.REDIRECT_URL = true ∨
        envFalsy env.SCOPES_CSV = true) →
      (generateShopifyApp env w bn sd).1 = .error (cfgMissingMsg env) ∧
      Ev.createStage ∈ (generateShopifyApp env w bn sd).2 ∧
      Ev.configStage ∉ (generateShopifyApp env w bn sd).2) := by
  constructor
  · intro env w bn sd hdash
    unfold generateShopifyApp
    simp [hdash]
  · intro env w bn sd u a hdash hbv hsv hl hc hp hcr hex hmiss
    unfold generateShopifyApp runStages configureVersionAndRelease cfgMissingMsg
    by_cases hau : envFalsy env.APP_URL = true
    · simp [hdash, hbv, hsv, hl, hc, hp, hcr, hex, hau]
    · rw [Bool.not_eq_true] at hau
      by_cases hru : envFalsy env.REDIRECT_URL = true
      · simp [hdash, hbv, hsv, hl, hc, hp, hcr, hex, hau, hru]
      · rw [Bool.not_eq_true] at hru
        have hsc : envFalsy env.SCOPES_CSV = true := by
          rcases hmiss with h | h | h
          · rw [hau] at h; cases h
          · rw [hru] at h; cases h
          · exact h
        simp [hdash, hbv, hsv, hl, hc, hp, hcr, hex, hau, hru, hsc]

/-- The environment used by the C7 counterexample: fully configured
except that `APP_URL` is missing. -/
def envNoAppUrl : Env := { envFull with APP_URL := none }

/-- C7 counterexample: with `APP_URL` missing, the run is not "fatal at
run start": the resource-creation stage performs browser work (and
creates the app) before the configuration error is raised. -/
theorem C7_counterexample :
    (generateShopifyApp envNoAppUrl wCoop (.str "Acme")
      (.str "acme.myshopify.com")).1 = .error "Missing env var: APP_URL" ∧
    Ev.launch ∈ (generateShopifyApp envNoAppUrl wCoop (.str "Acme")
      (.str "acme.myshopify.com")).2 ∧
    Ev.createStage ∈ (generateShopifyApp envNoAppUrl wCoop (.str "Acme")
      (.str "acme.myshopify.com")).2 := by
  exact ⟨rfl, by decide, by decide⟩

/-- C7 witness: a missing dashboard URL is fatal before any browser
work, and a missing `APP_URL` fails with its configuration error after
the create stage, with the configure stage never entered. -/
theorem C7_config_fatality_witness :
    ((generateShopifyApp { envFull with SHOPIFY_DEV_DASHBOARD_URL := none }
        wCoop (.str "Acme") (.str "acme.myshopify.com")).1 =
      .error "Missing env var: SHOPIFY_DEV_DASHBOARD_URL" ∧
     (generateShopifyApp { envFull with SHOPIFY_DEV_DASHBOARD_URL := none }
        wCoop (.str "Acme") (.str "acme.myshopify.com")).2 = []) ∧
    ((generateShopifyApp envNoAppUrl wCoop (.str "Acme")
        (.str "acme.myshopify.com")).1 = .error (cfgMissingMsg envNoAppUrl) ∧
     Ev.createStage ∈ (generateShopifyApp envNoAppUrl wCoop (.str "Acme")
        (.str "acme.myshopify.com")).2 ∧
     Ev.configStage ∉ (generateShopifyApp envNoAppUrl wCoop (.str "Acme")
        (.str "acme.myshopify.com")).2) := by
  constructor
  · exact C7_config_fatality.1 { envFull with SHOPIFY_DEV_DASHBOARD_URL := none }
      wCoop (.str "Acme") (.str "acme.myshopify.com") (by decide)
  · exact C7_config_fatality.2 envNoAppUrl wCoop (.str "Acme")
      (.str "acme.myshopify.com")
      "https://dev.shopify.com/dashboard/130027305/apps/123" "123"
      (by decide) (by decide) (by decide) (by decide) (by decide) (by decide)
      rfl (by decide) (Or.inl (by decide))

/-- C8 (confirmed): the candidate loop returns the empty string when no
candidate yields a value, and an empty credential never fails the run:
with every other stage cooperative, the run succeeds and the result
carries `clean` of whatever the candidate loops produced — the empty
string included. -/
theorem C8_scrape_tolerates_absence :
    (∀ cs : List Cand, (∀ c ∈ cs, candValue c = "") → scrapeGo cs = "") ∧
    (∀ (env : Env) (w : World) (bn sd : JsVal) (u a d link : String),
      envFalsy env.SHOPIFY_DEV_DASHBOARD_URL = false →
      jsStrValid bn = true → jsStrValid sd = true →
      w.launchOk = true → w.ctxOk = true → w.pageOk = true →
      w.createOutcome = .ok u → extractAppId u = some a →
      envFalsy env.APP_URL = false → envFalsy env.REDIRECT_URL = false →
      envFalsy env.SCOPES_CSV = false →
      dashboardIdFromUrl (env.SHOPIFY_DEV_DASHBOARD_URL.getD "") = some d →
      w.versionFormNav = .ok () →
      jsStrTrim w.appUrlEcho = env.APP_URL.getD "" →
      w.configureUi = .ok () → w.settingsNav = .ok () → w.distNav = .ok () →
      jsIncludes w.distLandingUrl "accounts.shopify.com/select" = false →
      w.selectOutcome = .ok () → w.fillFind = .ok () →
      jsStrTrim w.domainEcho = jsStr sd →
      w.genOutcome = .ok link →
      (generateShopifyApp env w bn sd).1 =
        .ok { app_name := jsStr bn ++ " x Retention"
              client_id := clean (scrapeGo w.idCandidates)
              client_secret := clean (scrapeGo w.secretCandidates)
              distribution_link := clean link
              note := resultNote
              store_domain := jsStr sd }) := by
  constructor
  · intro cs hall
    induction cs with
    | nil => rfl
    | cons c rest ih =>
      have h0 : candValue c = "" := hall c (List.mem_cons_self _ _)
      have hb : (candValue c != "") = false := by simp [h0]
      simpa [scrapeGo, hb] using ih (fun d hd => hall d (List.mem_cons_of_mem _ hd))
  · intro env w bn sd u a d link hdash hbv hsv hl hc hp hcr hex hau hru hsc
      hdid hvf hecho hcfg hset hdn hch hsel hff hde hgen
    have h := gen_success env w bn sd hdash hbv hsv hl hc hp u hcr a hex
      hau hru hsc d hdid hvf hecho hcfg hset hdn hch hsel hff hde link hgen
    rw [Prod.ext_iff] at h
    exact h.1

/-- The cooperative world whose candidate lists are all empty: every
candidate is absent or unreadable. -/
def wNoCreds : World :=
  { wCoop with idCandidates := [Cand.absent, Cand.errRead, Cand.val "  "]
               secretCandidates := [] }

/-- C8 witness: with no candidate yielding a value, the run still
succeeds and the result carries empty credentials. -/
theorem C8_scrape_tolerates_absence_witness :
    scrapeGo wNoCreds.idCandidates = "" ∧
    (generateShopifyApp envFull wNoCreds (.str "Acme")
      (.str "acme.myshopify.com")).1 =
      .ok { app_name := "Acme" ++ " x Retention"
            client_id := clean (scrapeGo wNoCreds.idCandidates)
            client_secret := clean (scrapeGo wNoCreds.secretCandidates)
            distribution_link := clean "https://admin.shopify.com/oauth/install_custom_app?x=1"
            note := resultNote
            store_domain := "acme.myshopify.com" } := by
  constructor
  · exact C8_scrape_tolerates_absence.1 wNoCreds.idCandidates (by decide)
  · exact C8_scrape_tolerates_absence.2 envFull wNoCreds (.str "Acme")
      (.str "acme.myshopify.com")
      "https://dev.shopify.com/dashboard/130027305/apps/123" "123" "130027305"
      "https://admin.shopify.com/oauth/install_custom_app?x=1"
      (by decide) (by decide) (by decide) (by decide) (by decide) (by decide)
      rfl (by decide) (by decide) (by decide) (by decide) (by decide)
      rfl (by decide) rfl rfl rfl (by decide)
      rfl rfl (by decide) rfl


/-- C9 (confirmed): on entry to the distribution stage — URL sanity and
anchor wait passed — if the domain-input UI or the generate-link action
is already present, the stage performs no click at all (`.ok []`): no
"select method" action is invoked and the page state is left unchanged. -/
theorem C9_distribution_idempotent :
    ∀ o : DistOracle,
      jsIncludes o.url "partners.shopify.com" = true →
      jsIncludes o.url "/distribution" = true →
      o.anchorOk = true →
      (0 < o.domainCount ∨ 0 < o.genCount) →
      selectCustomDistribution o = .ok [] := by
  intro o hu1 hu2 hanchor hpresent
  unfold selectCustomDistribution
  have hp : (o.domainCount > 0 || o.genCount > 0) = true := by
    rcases hpresent with h | h <;> simp [h]
  simp [hu1, hu2, hanchor, hp]

/-- The distribution-page observation used by the C9 witness: the domain
input is already present on entry. -/
def distOracleW : DistOracle :=
  { url := "https://partners.shopify.com/2767396/apps/123/distribution"
    anchorOk := true
    domainCount := 1
    genCount := 0
    directCount := 1
    customTextCount := 1
    nextCount := 1
    modalCount := 1
    modalConfirmCount := 1
    finalDomainOk := true }

/-- C9 witness: with the domain input already present (and every select
button also present), the stage still performs no click. -/
theorem C9_distribution_idempotent_witness :
    selectCustomDistribution distOracleW = .ok [] := by
  exact C9_distribution_idempotent distOracleW (by decide) (by decide)
    (by decide) (Or.inl (by decide))

/-- C10 (confirmed): `clean` produces strings with no edge whitespace
and no whitespace runs, is idempotent, maps null/undefined/empty input
to the empty string, and every returned workflow result carries
`client_id`, `client_secret` and `distribution_link` in this normal
form. -/
theorem C10_clean_normalizing :
    (∀ s : String, wsNormalForm (clean s) = true) ∧
    (∀ s : String, clean (clean s) = clean s) ∧
    cleanJs none = "" ∧ cleanJs (some "") = "" ∧
    (∀ (env : Env) (w : World) (bn sd : JsVal) (r : WResult),
      (generateShopifyApp env w bn sd).1 = .ok r →
      wsNormalForm r.client_id = true ∧
      wsNormalForm r.client_secret = true ∧
      wsNormalForm r.distribution_link = true) := by
  refine ⟨wsNormalForm_clean, clean_idem, rfl, rfl, ?_⟩
  intro env w bn sd r h
  obtain ⟨_, hid, hsec, _, link, _, hlink⟩ := gen_ok_char env w bn sd r h
  rw [hid, hsec, hlink]
  exact ⟨wsNormalForm_clean _, wsNormalForm_clean _, wsNormalForm_clean _⟩

/-- C10 witness: the normal form, idempotence and null behaviour on
concrete strings, and the normal form of the concrete cooperative run's
result fields. -/
theorem C10_clean_normalizing_witness :
    wsNormalForm (clean "  a   b ") = true ∧
    clean (clean " a  b ") = clean " a  b " ∧
    cleanJs none = "" ∧
    wsNormalForm rCoop.client_id = true ∧
    wsNormalForm rCoop.distribution_link = true := by
  refine ⟨C10_clean_normalizing.1 "  a   b ", C10_clean_normalizing.2.1 " a  b ",
    C10_clean_normalizing.2.2.1, ?_, ?_⟩
  · exact (C10_clean_normalizing.2.2.2.2 envFull wCoop (.str "Acme")
      (.str "acme.myshopify.com") rCoop rfl).1
  · exact (C10_clean_normalizing.2.2.2.2 envFull wCoop (.str "Acme")
      (.str "acme.myshopify.com") rCoop rfl).2.2

end ShopifyGen
